import Mathlib

/-
Verification development for the Logos-and-light deterministic content engine,
override-resolution chain, remote image mapping parser and digest builders.

Shallow embedding conventions:
* JS strings are Lean `String`s; a JS `string | null | undefined` value is
  `Option String` (`none` models null/undefined).
* JS 32-bit integer arithmetic (`Math.imul`, `^`, `Math.abs`) is modelled on
  `Nat` residues mod 2^32 with an explicit sign interpretation at the end.
* `localStorage` is threaded as explicit state (association lists / maps);
  JSON (de)serialisation of stored records is assumed faithful, so stores
  hold the structured values directly.
* Code that can throw is `Except String`-valued; code that can produce
  JS `undefined` without throwing is `Option`-valued.
* A JS `Date` is modelled as a whole number of UTC days since the epoch
  (`Int`); `toISOString().slice(0, 10)` becomes a civil-calendar conversion.
-/

/-- Models the JS expression `a || b` where `a`, `b` are string-or-null values:
the empty string and null are falsy. -/
def orString (a b : Option String) : Option String :=
  match a with
  | some s => if s = "" then b else some s
  | none => b

/-- Models the JS pattern `if (v) return v; <rest>` for a string-or-null `v`:
returns `v` when truthy (non-null, non-empty), otherwise the continuation. -/
def ifTruthy (v : Option String) (k : String) : String :=
  match v with
  | some s => if s = "" then k else s
  | none => k

/-- Truthiness of a string-or-null value, as a Bool. -/
def truthyStr (v : Option String) : Bool :=
  match v with
  | some s => decide (s ≠ "")
  | none => false

/-- Zero-pads a `Nat` to two decimal digits (used by the date rendering). -/
def pad2 (n : Nat) : String :=
  if n < 10 then "0" ++ toString n else toString n

/-- Zero-pads a year to four decimal digits. -/
def pad4 (y : Int) : String :=
  let n := y.toNat
  (if n < 10 then "000" else if n < 100 then "00" else if n < 1000 then "0" else "")
    ++ toString n

/-- A JS `Date`, modelled as a whole number of UTC days since 1970-01-01. -/
abbrev DateDays := Int

/-- Models `date.toISOString().slice(0, 10)`: converts a day count to the
`YYYY-MM-DD` civil date (proleptic Gregorian calendar, UTC). -/
def dateToISO (z : DateDays) : String :=
  let zsh := z + 719468
  let era := zsh.fdiv 146097
  let doe := (zsh - era * 146097).toNat
  let yoe := (doe - doe / 1460 + doe / 36524 - doe / 146096) / 365
  let doy := doe - (365 * yoe + yoe / 4 - yoe / 100)
  let mp := (5 * doy + 2) / 153
  let d := doy - (153 * mp + 2) / 5 + 1
  let m := if mp < 10 then mp + 3 else mp - 9
  let y : Int := era * 400 + yoe + (if m ≤ 2 then 1 else 0)
  pad4 y ++ "-" ++ pad2 m ++ "-" ++ pad2 d

/-- One of the six reflection themes (`ReflectionTheme` in contentEngine.ts). -/
inductive ReflectionTheme where
  | mindfulness
  | hope
  | gratitude
  | discernment
  | suffering
  | faithReason
deriving DecidableEq

/-- The string value of a theme as it appears in the TypeScript union type. -/
def themeStr : ReflectionTheme → String
  | .mindfulness => "mindfulness"
  | .hope => "hope"
  | .gratitude => "gratitude"
  | .discernment => "discernment"
  | .suffering => "suffering"
  | .faithReason => "faith-reason"

/-- A scripture excerpt `{text, ref}`. -/
structure ScriptureRef where
  text : String
  ref : String
deriving DecidableEq

/-- A quotation `{text, author}`. -/
structure QuoteRef where
  text : String
  author : String
deriving DecidableEq

/-- The `Reflection` record of contentEngine.ts. -/
structure Reflection where
  dateISO : String
  theme : ReflectionTheme
  title : String
  scripture : ScriptureRef
  quote : QuoteRef
  body : List String
  prayer : String
  questions : List String
  tags : List String
deriving DecidableEq

namespace ContentEngine

/-- contentEngine.ts `hash`: FNV-1a-style accumulation over UTF-16 code units
with `Math.imul` (32-bit product) and a final `Math.abs` of the signed value.
The running value is kept as the unsigned residue mod 2^32; the final step
interprets it as a signed 32-bit integer and takes the absolute value. -/
def hash (s : String) : Nat :=
  let h := s.data.foldl
    (fun h c => ((h ^^^ c.toNat) % 4294967296) * 16777619 % 4294967296)
    2166136261
  if h < 2147483648 then h else 4294967296 - h

/-- contentEngine.ts `pick`: throws `Cannot pick from empty array` on an empty
list and otherwise returns `items[seed mod items.length]`. -/
def pick (arr : List α) (seed : Nat) : Except String α :=
  if h : arr.length = 0 then .error "Cannot pick from empty array"
  else .ok (arr.get ⟨seed % arr.length, Nat.mod_lt _ (Nat.pos_of_ne_zero h)⟩)

/-- The module-level content tables of contentEngine.ts, gathered in a record
so theorems can express the effect of mutating the tables between calls
(the source keeps them as module globals). -/
structure Pools where
  scripturePool : List ScriptureRef
  quotePool : List QuoteRef
  titleFragments : ReflectionTheme → List String
  bodyTemplates : List String
  prayers : List String
  questionsPool : List String

/-- contentEngine.ts `scripturePool`. -/
def scripturePool : List ScriptureRef :=
  [ { text := "Be still, and know that I am God.", ref := "Psalm 46:10" },
    { text := "In quietness and in confidence shall be your strength.", ref := "Isaiah 30:15" },
    { text := "Pray without ceasing.", ref := "1 Thessalonians 5:17" },
    { text := "In Him was life; and the life was the light of men.", ref := "John 1:4" },
    { text := "Be transformed by the renewing of your mind.", ref := "Romans 12:2" },
    { text := "Draw nigh to God, and he will draw nigh to you.", ref := "James 4:8" } ]

/-- contentEngine.ts `quotePool`. -/
def quotePool : List QuoteRef :=
  [ { text := "The unexamined life is not worth living.", author := "Socrates" },
    { text := "You have made us for Yourself, and our heart is restless until it rests in You.", author := "Augustine" },
    { text := "Faith seeks understanding.", author := "Anselm" },
    { text := "All truth is God’s truth.", author := "Arthur Holmes" },
    { text := "He who has God and everything else has no more than he who has God only.", author := "C. S. Lewis" },
    { text := "What we think about when we are free to think about what we will—that is what we are or will soon become.", author := "A. W. Tozer" } ]

/-- contentEngine.ts `titleFragments`. -/
def titleFragments : ReflectionTheme → List String
  | .mindfulness =>
      ["Be Still and Know", "Attention in the Presence of Christ",
       "Breath, Body, and Beloved", "Christ-centered Stillness"]
  | .hope =>
      ["Bright Hope in the Present", "Anchored Expectation", "Light at the Edge",
       "Hope That Does Not Shame"]
  | .gratitude =>
      ["Receiving the Day", "Gratitude as Worship", "Counting Gifts with God",
       "Eucharistic Vision"]
  | .discernment =>
      ["Hearing the Still Small Voice", "Wisdom for the Way", "Testing and Holding Fast",
       "Walking in Light"]
  | .suffering =>
      ["Meaning in the Night", "Companion in Sorrow", "Cross and Consolation",
       "Lament and Trust"]
  | .faithReason =>
      ["Logos and Light", "Mind Renewed", "Reason as Servant of Love",
       "Harmony of Faith and Mind"]

/-- contentEngine.ts `bodyTemplates`. -/
def bodyTemplates : List String :=
  [ "Today’s reflection considers THEME as a posture of loving attention before God. In SCRIPTURE, we are invited not to escape the world but to behold God within it.",
    "Mindfulness in Christ is not emptying into nothingness, but opening to communion. As QUOTE reminds us, the examined life is ordered toward Truth Himself.",
    "Practice a gentle rhythm: inhale “Jesus,” exhale “have mercy.” Let distractions become cues for returning to Presence without judgment.",
    "Let your reason serve love. Ask: what is true here, what is good to do, and what is beautiful to behold in light of the Gospel?" ]

/-- contentEngine.ts `prayers`. -/
def prayers : List String :=
  [ "Lord Jesus, quiet my restless heart and tune my attention to Your presence. Teach me to abide in love. Amen.",
    "Father, renew my mind and guide my steps. Let Your light illumine my thoughts and actions today. Amen.",
    "Holy Spirit, breathe in me a steady, gentle awareness of Your presence, and kindle hope within. Amen." ]

/-- contentEngine.ts `questionsPool`. -/
def questionsPool : List String :=
  [ "Where did I notice God’s presence today?",
    "What stirred anxiety, and how might I bring it to prayer?",
    "What is one small act of love or truth I can offer next?",
    "How can I let my breath become a reminder to return to Christ?" ]

/-- The actual module-level tables of contentEngine.ts as one `Pools` value. -/
def defaultPools : Pools :=
  { scripturePool := scripturePool
    quotePool := quotePool
    titleFragments := titleFragments
    bodyTemplates := bodyTemplates
    prayers := prayers
    questionsPool := questionsPool }

/-- contentEngine.ts `humanizeTheme`. -/
def humanizeTheme : ReflectionTheme → String
  | .mindfulness => "mindfulness in Christ"
  | .hope => "Christian hope"
  | .gratitude => "gratitude before God"
  | .discernment => "spiritual discernment"
  | .suffering => "suffering with Christ"
  | .faithReason => "the harmony of faith and reason"

/-- contentEngine.ts `makeBody`: fills every body template, replacing all
occurrences of the THEME/SCRIPTURE/QUOTE placeholders (the `seed` parameter
is accepted but unused, exactly as in the source). -/
def makeBody (pools : Pools) (theme : ReflectionTheme) (scripture : ScriptureRef)
    (quote : QuoteRef) (seed : Nat) : List String :=
  let _ := seed
  pools.bodyTemplates.map (fun t =>
    ((t.replace "THEME" (humanizeTheme theme)).replace "SCRIPTURE"
        ("\"" ++ scripture.text ++ "\" (" ++ scripture.ref ++ ")")).replace "QUOTE"
      ("\"" ++ quote.text ++ "\" — " ++ quote.author))

/-- Models `[q1, q2].filter((v, idx, arr) => arr.indexOf(v) === idx)`:
keeps the elements whose first occurrence is at their own index. -/
def dedupFirst (l : List String) : List String :=
  (l.enum.filter (fun p => l.indexOf p.2 = p.1)).map (fun p => p.2)

/-- contentEngine.ts `generateReflection`: deterministically builds a
reflection for a date and theme from the given pools.  A thrown JS error
(from `pick` on an empty pool) is an `Except.error`. -/
def generateReflection (pools : Pools) (date : DateDays) (theme : ReflectionTheme) :
    Except String Reflection := do
  let dateISO := dateToISO date
  let seed := hash (dateISO ++ "|" ++ themeStr theme)
  let scripture ← pick pools.scripturePool (seed + 1)
  let quote ← pick pools.quotePool (seed + 7)
  let title ← pick (pools.titleFragments theme) (seed + 13)
  let body := makeBody pools theme scripture quote seed
  let prayer ← pick pools.prayers (seed + 17)
  let q1 ← pick pools.questionsPool (seed + 19)
  let q2 ← pick pools.questionsPool (seed + 23)
  let questions := dedupFirst [q1, q2]
  let tags := [humanizeTheme theme, "daily", "reflection"]
  return { dateISO, theme, title, scripture, quote, body, prayer, questions, tags }

/-- The localStorage slice holding cached reflections, keyed by the cache key
string; values are the stored records (JSON round-trip assumed faithful). -/
abbrev ReflectionStore := List (String × Reflection)

/-- The cache key `ll-reflection:{dateISO}:{theme}` of getReflectionForDate. -/
def reflectionKey (dateISO : String) (theme : ReflectionTheme) : String :=
  "ll-reflection:" ++ dateISO ++ ":" ++ themeStr theme

/-- contentEngine.ts `getStoredReflection`: reads a stored reflection, `none`
when absent (or when storage fails / holds corrupt JSON). -/
def getStoredReflection (key : String) (st : ReflectionStore) : Option Reflection :=
  st.lookup key

/-- contentEngine.ts `storeReflection`: persists a reflection under the key. -/
def storeReflection (key : String) (value : Reflection) (st : ReflectionStore) :
    ReflectionStore :=
  (key, value) :: st

/-- contentEngine.ts `getReflectionForDate`: returns the cached reflection for
`(dateISO, theme)` when present, otherwise generates, stores and returns it.
The store is threaded explicitly; the resulting store is returned. -/
def getReflectionForDate (pools : Pools) (st : ReflectionStore) (date : DateDays)
    (theme : ReflectionTheme) : Except String (Reflection × ReflectionStore) :=
  let dateISO := dateToISO date
  let key := reflectionKey dateISO theme
  match getStoredReflection key st with
  | some existing => .ok (existing, st)
  | none => do
      let generated ← generateReflection pools date theme
      return (generated, storeReflection key generated st)

end ContentEngine

/-- Decimal digit list of a natural number (most significant first); the
rendering performed by the JS template interpolation of a number. -/
def decDigits (n : Nat) : List Char :=
  if _h : n < 10 then [Nat.digitChar n]
  else decDigits (n / 10) ++ [Nat.digitChar (n % 10)]
decreasing_by exact Nat.div_lt_self (by omega) (by omega)

/-- Decimal string of a natural number, as produced by JS `${n}`. -/
def natToStr (n : Nat) : String :=
  String.mk (decDigits n)

namespace ArticleEngine

/-- articleEngine.ts `TopicKey`: the eight registered topic keys. -/
inductive TopicKey where
  | faithAndReason
  | ethics
  | metaphysics
  | theology
  | scripture
  | aesthetics
  | history
  | apologetics
deriving DecidableEq

/-- The string value of a topic key as written in the TypeScript union. -/
def topicKeyStr : TopicKey → String
  | .faithAndReason => "faith-and-reason"
  | .ethics => "ethics"
  | .metaphysics => "metaphysics"
  | .theology => "theology"
  | .scripture => "scripture"
  | .aesthetics => "aesthetics"
  | .history => "history"
  | .apologetics => "apologetics"

/-- articleEngine.ts `TopicMeta`. -/
structure TopicMeta where
  key : TopicKey
  label : String
  imageKeyword : String
deriving DecidableEq

/-- articleEngine.ts `topics`: the registry of available topics. -/
def topics : List TopicMeta :=
  [ { key := .faithAndReason, label := "Faith & Reason", imageKeyword := "compass" },
    { key := .ethics, label := "Ethics", imageKeyword := "scales" },
    { key := .metaphysics, label := "Metaphysics", imageKeyword := "galaxy" },
    { key := .theology, label := "Theology", imageKeyword := "stained glass" },
    { key := .scripture, label := "Scripture", imageKeyword := "cross sunrise" },
    { key := .aesthetics, label := "Aesthetics", imageKeyword := "statue" },
    { key := .history, label := "History", imageKeyword := "ruins" },
    { key := .apologetics, label := "Apologetics", imageKeyword := "shield" } ]

/-- articleEngine.ts `hash` (same FNV-1a-style function as contentEngine.ts). -/
def hash (s : String) : Nat :=
  let h := s.data.foldl
    (fun h c => ((h ^^^ c.toNat) % 4294967296) * 16777619 % 4294967296)
    2166136261
  if h < 2147483648 then h else 4294967296 - h

/-- articleEngine.ts `pick`: `arr[seed % arr.length]` with NO emptiness check;
on an empty array the JS expression evaluates to `undefined` (here `none`)
rather than throwing. -/
def pick (arr : List α) (seed : Nat) : Option α :=
  arr.get? (seed % arr.length)

/-- articleEngine.ts `rotate`: the array rotated left by `seed mod length`. -/
def rotate (arr : List α) (seed : Nat) : List α :=
  if arr.length = 0 then arr
  else
    let offset := seed % arr.length
    arr.drop offset ++ arr.take offset

/-- articleEngine.ts `sampleDeterministic`: `count` unique items obtained by
rotating and slicing (order-biased by design, not a shuffle). -/
def sampleDeterministic (arr : List α) (count : Nat) (seed : Nat) : List α :=
  if arr.length = 0 then []
  else
    let rotated := rotate arr seed
    if count ≥ arr.length then rotated else rotated.take count

/-- articleEngine.ts `titlePool`. -/
def titlePool : TopicKey → List String
  | .faithAndReason =>
      ["Reason in Service of Love", "Logos and the Light of Faith", "When Inquiry Kneels",
       "Thinking with the Church", "Mind Renewed in Christ", "Truth Weds Trust"]
  | .ethics =>
      ["The Shape of the Good Life", "Virtue and the Beatitudes", "Habits of Holy Courage",
       "Mercy and Justice", "Formed by Love"]
  | .metaphysics =>
      ["Being, Gift, and Creator", "Contingency and the Necessary", "Light from First Principles",
       "Participation in Being", "Wonder Before What Is"]
  | .theology =>
      ["Knowing God in Mystery", "Trinity and the Life of Love", "The Cross at the Center",
       "Grace and Nature", "Speaking of God Well"]
  | .scripture =>
      ["Reading with the Saints", "Scripture as Living Word", "Hearing God Today",
       "From Text to Transformation", "Word that Forms Us"]
  | .aesthetics =>
      ["Beauty as a Path to God", "Icons of Glory", "Art and the Ache for Home",
       "The Radiance of Form", "Attention to Splendor"]
  | .history =>
      ["Lessons from the Fathers", "Streams of Tradition", "Renewal in Every Age",
       "Pilgrims and Witnesses", "Memory for Mission"]
  | .apologetics =>
      ["A Reason for Hope", "Answering with Gentleness", "Truth in the Public Square",
       "Confidence without Arrogance", "Giving the Why with Love"]

/-- articleEngine.ts `excerptPool`. -/
def excerptPool : TopicKey → List String
  | .faithAndReason =>
      ["How faith and inquiry enrich one another without compromise.",
       "Why the life of the mind belongs inside discipleship.",
       "Honoring both revelation and reasoned arguments.",
       "Thinking deeply as an act of trust."]
  | .ethics =>
      ["From habits to holiness: character shaped by grace.",
       "What the Beatitudes teach about real flourishing.",
       "Navigating moral gray with the light of Christ.",
       "Virtue as love’s steady form."]
  | .metaphysics =>
      ["From contingency to Creator: a first-philosophy path.",
       "Seeing creation as gift and participation.",
       "How being and goodness anchor our lives.",
       "Wonder before the fact of existence."]
  | .theology =>
      ["Entering mystery with reverence and clarity.",
       "The Cross and Resurrection as interpretive center.",
       "Grace elevates, not erases, nature.",
       "The Trinity as love’s eternal life."]
  | .scripture =>
      ["Lectio with the Church: hearing the living Word.",
       "From text to transformation in daily life.",
       "Reading as communion, not mere information.",
       "Word that reads us back."]
  | .aesthetics =>
      ["Beauty draws us toward the True and the Good.",
       "Seeing with new eyes: a theology of art.",
       "Why form and radiance matter to the soul.",
       "Attention trained by splendor."]
  | .history =>
      ["Receiving the wisdom of saints and teachers.",
       "Movements of renewal across the centuries.",
       "Witnesses who show faith under pressure.",
       "Tradition as faithful memory."]
  | .apologetics =>
      ["Giving reasons for hope with gentleness.",
       "Truth in the public square without fear.",
       "Confidence rooted in Christ, not in victory.",
       "Clarity with compassion persuades."]

/-- articleEngine.ts `paragraphsByTopic`. -/
def paragraphsByTopic : TopicKey → List String
  | .faithAndReason =>
      ["Faith and reason are not rivals but friends; each asks for the whole truth and receives it as gift.",
       "Christian inquiry kneels before revelation without abandoning clear thinking or careful argument.",
       "To love God with the mind is to let thought be purified by humility and guided by the Church’s wisdom.",
       "Reason serves love best when it seeks understanding that becomes worship.",
       "In prayer, questions become places of trust; in study, trust becomes patient inquiry.",
       "Christ, the Logos, unites what we know and whom we love.",
       "A disciple’s intellect is not neutral ground; it is soil for seeds of light."]
  | .ethics =>
      ["Virtue is form given to love—habits trained to choose the good with joy.",
       "The Beatitudes describe a life beautiful in God’s eyes, not merely successful.",
       "Conscience matures when taught by truth, strengthened by grace, and exercised in small, concrete acts.",
       "Mercy perfects justice by fulfilling its aim: the good of the other.",
       "Freedom grows where desire is healed, not indulged.",
       "Holiness is not sterility but the fullness of love’s courage."]
  | .metaphysics =>
      ["To ask why there is anything at all is to stand at the edge of wonder.",
       "Creation is given, not necessary; it participates in Being who is first.",
       "Causality opens onto meaning: final causes point beyond utility to purpose.",
       "Contingent things echo a more-than-contingent Source.",
       "The true, good, and beautiful are convertible because they flow from one simple act of being.",
       "First principles are not shortcuts but foundations for reverent thought."]
  | .theology =>
      ["Theology speaks after listening; it answers revelation with careful reverence.",
       "God is not an item among items but the One in whom we live and move and have our being.",
       "The Cross reveals both the gravity of sin and the greater gravity of love.",
       "Grace heals, elevates, and perfects nature without erasing it.",
       "The Trinity is not an abstract puzzle but the living life of God shared with us.",
       "Dogma protects mystery so it can be adored rather than flattened."]
  | .scripture =>
      ["Scripture is living Word: to read is to be addressed by God.",
       "We read with the Church so that private impressions are tested by common faith.",
       "Lectio divina forms a rhythm of hearing, responding, resting, and being sent.",
       "Meditation turns words into prayer; contemplation lets prayer ripen into quiet joy.",
       "The canon is a symphony where Christ is the theme.",
       "To memorize a verse is to carry light in the mind."]
  | .aesthetics =>
      ["Beauty does not distract from God; it discloses Him.",
       "Form is the radiance of order; splendor invites attention made pure.",
       "Icons teach us to see; art can become prayer when offered in love.",
       "Desire learns to love the beautiful truly when healed by grace.",
       "The Church’s arts are not luxuries but language for glory.",
       "A crafted thing can tutor the heart toward patience."]
  | .history =>
      ["The communion of saints is not nostalgia but companionship for mission.",
       "Renewal appears in every age when hearts return to the first love.",
       "Councils, creeds, and catechesis are memory serving charity.",
       "Martyrs witness that truth is worth more than comfort.",
       "Tradition carries fire, not ashes; it hands on life.",
       "History chastens our pride and enlarges our hope."]
  | .apologetics =>
      ["Apologetics is not winning arguments but winning trust for the Truth.",
       "Give reasons, yes—but with gentleness and patience born of prayer.",
       "Public square clarity should be salted with compassion.",
       "Confidence rests in Christ’s lordship, not in our eloquence.",
       "Questions are doors, not threats, when the Church is secure in her hope.",
       "Beauty and goodness often persuade where syllogisms cannot."]

/-- articleEngine.ts `practiceByTopic`. -/
def practiceByTopic : TopicKey → List String
  | .faithAndReason =>
      ["Practice: write one honest question to bring into prayer and study today.",
       "Practice: read a paragraph from a Doctor of the Church and journal one line of light."]
  | .ethics =>
      ["Practice: choose one concrete act of mercy and do it quietly.",
       "Practice: name a virtue to practice in a small decision before noon."]
  | .metaphysics =>
      ["Practice: spend five minutes in wonder outdoors and thank God simply.",
       "Practice: trace a cause in your day back to its purpose and offer it to God."]
  | .theology =>
      ["Practice: pray the Creed slowly, lingering at one phrase.",
       "Practice: read one paragraph of a classic catechism and respond in prayer."]
  | .scripture =>
      ["Practice: try lectio divina on a short psalm today.",
       "Practice: memorize one verse and repeat it at noon and evening."]
  | .aesthetics =>
      ["Practice: sit with a sacred image for two minutes and notice one detail.",
       "Practice: create one small thing and offer it to God in gratitude."]
  | .history =>
      ["Practice: read a short life of a saint and imitate one habit today.",
       "Practice: ask someone older in faith one question about God’s faithfulness."]
  | .apologetics =>
      ["Practice: write a gentle, clear answer to a common question you hear.",
       "Practice: pray for someone who disagrees with you by name."]

/-- articleEngine.ts `scriptureByTopic`. -/
def scriptureByTopic : TopicKey → List ScriptureRef
  | .faithAndReason =>
      [ { text := "Be transformed by the renewing of your mind.", ref := "Romans 12:2" },
        { text := "In him was life; and the life was the light of men.", ref := "John 1:4" } ]
  | .ethics =>
      [ { text := "Blessed are the pure in heart, for they shall see God.", ref := "Matthew 5:8" },
        { text := "What does the Lord require of you but to do justice, and to love kindness, and to walk humbly?",
          ref := "Micah 6:8" } ]
  | .metaphysics =>
      [ { text := "In him we live and move and have our being.", ref := "Acts 17:28" },
        { text := "He is before all things, and in him all things hold together.", ref := "Colossians 1:17" } ]
  | .theology =>
      [ { text := "The Word became flesh and dwelt among us.", ref := "John 1:14" },
        { text := "Holy, holy, holy is the Lord of hosts.", ref := "Isaiah 6:3" } ]
  | .scripture =>
      [ { text := "Your word is a lamp to my feet and a light to my path.", ref := "Psalm 119:105" },
        { text := "All Scripture is breathed out by God and profitable for teaching.", ref := "2 Timothy 3:16" } ]
  | .aesthetics =>
      [ { text := "Worship the Lord in the beauty of holiness.", ref := "Psalm 96:9" },
        { text := "Whatever is lovely, think about these things.", ref := "Philippians 4:8" } ]
  | .history =>
      [ { text := "Remember the days of old; consider the years of many generations.", ref := "Deuteronomy 32:7" },
        { text := "We are surrounded by so great a cloud of witnesses…", ref := "Hebrews 12:1" } ]
  | .apologetics =>
      [ { text := "Always be prepared to make a defense… yet with gentleness and respect.",
          ref := "1 Peter 3:15" },
        { text := "Let your speech always be gracious, seasoned with salt.", ref := "Colossians 4:6" } ]

/-- articleEngine.ts `extraTags`. -/
def extraTags : TopicKey → List String
  | .faithAndReason => ["reason", "revelation", "logos"]
  | .ethics => ["virtue", "mercy", "justice"]
  | .metaphysics => ["being", "first principles", "causality"]
  | .theology => ["trinity", "incarnation", "grace"]
  | .scripture => ["lectio divina", "word", "canon"]
  | .aesthetics => ["beauty", "form", "icon"]
  | .history => ["tradition", "saints", "renewal"]
  | .apologetics => ["hope", "gentleness", "public square"]

/-- articleEngine.ts `generalConnective`. -/
def generalConnective : List String :=
  ["Prayer steadies inquiry so that thought becomes worship and action becomes charity.",
   "Gratitude clears vision; from gratitude we can think, choose, and love more truly.",
   "Small, faithful acts shape the soul more than rare heroic moments."]

/-- articleEngine.ts `quotePool`. -/
def quotePool : List QuoteRef :=
  [ { text := "Faith seeks understanding.", author := "Anselm" },
    { text := "The unexamined life is not worth living.", author := "Socrates" },
    { text := "You have made us for Yourself, and our heart is restless until it rests in You.", author := "Augustine" },
    { text := "All truth is God’s truth.", author := "Arthur Holmes" },
    { text := "He who has God and everything else has no more than he who has God only.", author := "C. S. Lewis" } ]

/-- articleEngine.ts `toDateISO` (same normalisation as the reflections). -/
def toDateISO (d : DateDays) : String :=
  dateToISO d

/-- Models the global dash-removing regex replace applied to `dateISO`. -/
def stripDashes (s : String) : String :=
  String.mk (s.data.filter (fun c => c ≠ '-'))

/-- articleEngine.ts `articleId`: `{topic}-{YYYYMMDD}-{index}`. -/
def articleId (topic : TopicKey) (dateISO : String) (index : Nat) : String :=
  topicKeyStr topic ++ "-" ++ stripDashes dateISO ++ "-" ++ natToStr index

/-- articleEngine.ts `humanLabel`. -/
def humanLabel (topic : TopicKey) : String :=
  match topics.find? (fun t => t.key = topic) with
  | some meta => meta.label
  | none => topicKeyStr topic

/-- articleEngine.ts `keywordFor`. -/
def keywordFor (topic : TopicKey) : String :=
  match topics.find? (fun t => t.key = topic) with
  | some meta => meta.imageKeyword
  | none => "abstract gradient"

/-- articleEngine.ts `buildBody`: 3 or 4 core paragraphs sampled from the
topic pool, then one connective paragraph, one scripture paragraph and one
practice paragraph.  `Option`-valued because `pick` can yield `undefined`. -/
def buildBody (topic : TopicKey) (seed : Nat) : Option (List String) := do
  let baseCount := 3 + seed % 2
  let core := sampleDeterministic (paragraphsByTopic topic) baseCount (seed + 101)
  let scr ← pick (scriptureByTopic topic) (seed + 211)
  let scripturePara := "Scripture: “" ++ scr.text ++ "” (" ++ scr.ref ++ ")."
  let connect ← pick generalConnective (seed + 307)
  let practice ← pick (practiceByTopic topic) (seed + 409)
  return core ++ [connect, scripturePara, practice]

/-- A character allowed in the topic group of the article-id regex: `[a-z-]`. -/
def isTopicChar (c : Char) : Bool :=
  ('a' ≤ c && c ≤ 'z') || c = '-'

/-- JS `parseInt(s, 10)` restricted to all-digit strings (the only way it is
reached in `parseArticleId`, after the regex has validated the digits). -/
def parseDec (cs : List Char) : Nat :=
  cs.foldl (fun n c => n * 10 + (c.toNat - 48)) 0

/-- Looks a topic string up in the registry, as `topics.some(t => t.key === topic)`
followed by the use of the string as a `TopicKey`. -/
def topicOfString (s : String) : Option TopicKey :=
  (topics.find? (fun t => topicKeyStr t.key = s)).map (fun t => t.key)

/-- articleEngine.ts `parseArticleId`: matches the anchored regex
`[a-z-]+` dash `8 digits` dash `digits` (groups: topic slug, date digits,
index), rejects unknown topic slugs, rebuilds `YYYY-MM-DD` from the digit
block and parses the index in base 10.  The regex is compiled here into an
explicit right-to-left scan: the trailing digit run is the index group, the
preceding dash-delimited 8-digit block is the date group, and the nonempty
`[a-z-]` remainder is the topic group; this decomposition is the unique one
the regex can take, because the topic class excludes digits. -/
def parseArticleId (id : String) : Option (TopicKey × String × Nat) :=
  let rev := id.data.reverse
  let cRev := rev.takeWhile Char.isDigit
  let rest1 := rev.dropWhile Char.isDigit
  match cRev, rest1 with
  | [], _ => none
  | _ :: _, [] => none
  | _ :: _, sep1 :: rest2 =>
    if sep1 = '-' then
      let bRev := rest2.take 8
      let rest3 := rest2.drop 8
      if bRev.length = 8 && bRev.all Char.isDigit then
        match rest3 with
        | [] => none
        | sep2 :: aRev =>
          if sep2 = '-' && !aRev.isEmpty && aRev.all isTopicChar then
            match topicOfString (String.mk aRev.reverse) with
            | none => none
            | some topic =>
              let b := bRev.reverse
              let dateISO := String.mk
                (b.take 4 ++ '-' :: (b.drop 4).take 2 ++ '-' :: (b.drop 6).take 2)
              some (topic, dateISO, parseDec cRev.reverse)
          else none
      else none
    else none

/-- articleEngine.ts `extractKeywords`: lowercases the title, replaces
non-letter characters by spaces, splits on whitespace, keeps non-stopword
words of length at least 4, dedups preserving first occurrences, and samples
at most two deterministically. -/
def extractKeywords (title : String) (seed : Nat) : List String :=
  let stop := ["the", "and", "of", "in", "a", "an", "to", "with", "for", "on", "by",
               "at", "from", "as", "is", "are", "be", "or", "that", "this", "it",
               "into", "over", "under", "before", "after", "our", "your", "their"]
  let cleaned := String.mk (title.toLower.data.map
    (fun c => if ('a' ≤ c && c ≤ 'z') || c.isWhitespace then c else ' '))
  let words := (cleaned.split Char.isWhitespace).filter
    (fun w => w.length ≥ 4 && !stop.contains w)
  match words with
  | [] => []
  | _ =>
    let unique := ContentEngine.dedupFirst words
    sampleDeterministic unique (min 2 unique.length) seed

/-- articleEngine.ts `buildImageQuery` style vocabulary. -/
def styleWords : List String :=
  ["glass", "geometry", "grid", "lattice", "lines", "prism", "halo", "bokeh",
   "gradient", "marble", "stone", "arch", "pillar", "symmetric", "minimal",
   "abstract", "studio", "soft light", "long exposure", "ray", "tessellation",
   "vortex", "spiral", "silhouette", "texture", "mesh", "weave", "ring", "wave",
   "hexagon", "pattern", "light rays", "silver", "mirror", "refraction", "glow",
   "cathedral light"]

/-- articleEngine.ts `buildImageQuery` palette vocabulary. -/
def palette : List String :=
  ["indigo", "teal", "violet", "amber", "azure", "slate", "silver", "ivory",
   "charcoal", "emerald", "rose", "sky", "cyan"]

/-- articleEngine.ts `buildImageQuery`: title keywords + topic keyword +
seeded style words and palette colors.  `Option`-valued because each `pick`
can in principle yield `undefined`. -/
def buildImageQuery (topic : TopicKey) (title : String) (seed : Nat) :
    Option String := do
  let topicKw := keywordFor topic
  let titleTerms := extractKeywords title (seed + 1)
  let w1 ← pick styleWords (seed + 17)
  let w2 ← pick (rotate styleWords (seed + 31)) (seed + 5)
  let w3 ← pick (rotate styleWords (seed + 47)) (seed + 23)
  let w4 ← pick (rotate styleWords (seed + 59)) (seed + 37)
  let color1 ← pick palette (seed + 71)
  let color2 ← pick (rotate palette (seed + 83)) (seed + 19)
  return String.intercalate " " (titleTerms ++ [topicKw, w1, w2, w3, w4, color1, color2])

/-- The full article record produced by `generateArticleCore`. -/
structure Article where
  id : String
  title : String
  excerpt : String
  image : String
  tags : List String
  body : List String
  quote : QuoteRef
  topic : TopicKey
  dateISO : String
deriving DecidableEq

/-- articleEngine.ts `generateArticleCore`: builds one article from topic,
ISO date string and index.  The image query is computed (and discarded) just
as in the source, where `image` is a fixed CDN URL. -/
def generateArticleCore (topic : TopicKey) (dateISO : String) (index : Nat) :
    Option Article := do
  let seedBase := hash (topicKeyStr topic ++ "|" ++ dateISO ++ "|" ++ natToStr index)
  let id := articleId topic dateISO index
  let title ← pick (titlePool topic) (seedBase + 3)
  let excerpt ← pick (excerptPool topic) (seedBase + 7)
  let quote ← pick quotePool (seedBase + 11)
  let body ← buildBody topic (seedBase + 13)
  let _query ← buildImageQuery topic title (seedBase + 19)
  let image := "https://pub-cdn.sider.ai/u/U0AWH6J28LO/web-coder/6896d87314f019f2a83e5a14/resource/ab6ea90d-af37-40dd-879c-6732198db0be.jpg"
  let extra ← pick (extraTags topic) (seedBase + 29)
  let tags := [humanLabel topic, "daily", extra]
  return { id, title, excerpt, image, tags, body, quote, topic, dateISO }

/-- The card shape pushed by `listArticlesForDate` (ArticleCard's `Article`). -/
structure ArticleCard where
  id : String
  title : String
  excerpt : String
  image : String
  tags : List String
  path : String
  topic : TopicKey
deriving DecidableEq

/-- The card built from one generated article. -/
def toCard (core : Article) : ArticleCard :=
  { id := core.id, title := core.title, excerpt := core.excerpt,
    image := core.image, tags := core.tags, path := "/articles/" ++ core.id,
    topic := core.topic }

/-- articleEngine.ts `listArticlesForDate`: for each registered topic, the
articles with indices `1..perTopic` for the date, in registry order. -/
def listArticlesForDate (date : DateDays) (perTopic : Nat) : Option (List ArticleCard) := do
  let dateISO := toDateISO date
  let groups ← topics.mapM (fun t =>
    (List.range perTopic).mapM (fun i =>
      (generateArticleCore t.key dateISO (i + 1)).map toCard))
  return groups.flatten

end ArticleEngine

namespace NewsletterDigest

/-- newsletterDigest.ts `previousDays`: the dates `base, base-1, ..., base-(count-1)`
(in the day-count model, `setDate(getDate() - i)` shifts by exactly `i` days). -/
def previousDays (base : DateDays) (count : Nat) : List DateDays :=
  (List.range count).map (fun i => base - (i : Int))

/-- A digest `{subject, reflection, articles}`. -/
structure Digest where
  subject : String
  reflection : Reflection
  articles : List ArticleEngine.ArticleCard
deriving DecidableEq

/-- newsletterDigest.ts `buildDailyDigest`.  `fmtHuman` stands for the
locale-dependent `formatHumanDate`; the reflection cache store is threaded
explicitly and returned.  A thrown error or an undefined value propagates as
`none` (the digest never reaches the caller in that case). -/
def buildDailyDigest (fmtHuman : DateDays → String) (st : ContentEngine.ReflectionStore)
    (date : DateDays) : Option (Digest × ContentEngine.ReflectionStore) := do
  let (reflection, st') ←
    (ContentEngine.getReflectionForDate ContentEngine.defaultPools st date .mindfulness).toOption
  let all ← ArticleEngine.listArticlesForDate date 1
  let articles := all.take 3
  let subject := "Daily • " ++ fmtHuman date
  return ({ subject, reflection, articles }, st')

/-- newsletterDigest.ts `buildWeeklyDigest`: one reflection anchored at
`endDate` (theme faith-reason) plus the first generated article of each of
the 7 days ending at `endDate`, going backward, dropping days that yield no
article and capping at 7. -/
def buildWeeklyDigest (fmtHuman : DateDays → String) (st : ContentEngine.ReflectionStore)
    (endDate : DateDays) : Option (Digest × ContentEngine.ReflectionStore) := do
  let days := previousDays endDate 7
  let (reflection, st') ←
    (ContentEngine.getReflectionForDate ContentEngine.defaultPools st endDate .faithReason).toOption
  let perDay ← days.mapM (fun d => (ArticleEngine.listArticlesForDate d 1).map List.head?)
  let articles := (perDay.filterMap id).take 7
  let weekRange :=
    fmtHuman (days.getD (days.length - 1) endDate) ++ " – " ++ fmtHuman (days.getD 0 endDate)
  let subject := "Weekly Digest • " ++ weekRange
  return ({ subject, reflection, articles }, st')

end NewsletterDigest

namespace RemoteImages

/-- The two key→URL tables `{topics, articles}`, as ordered association lists
with in-place update, mirroring JS object assignment semantics. -/
structure RemoteMaps where
  topics : List (String × String)
  articles : List (String × String)
deriving DecidableEq

/-- JS object assignment `obj[k] = v`: updates the existing binding in place
or appends a new one (insertion order preserved). -/
def objSet (m : List (String × String)) (k v : String) : List (String × String) :=
  if m.any (fun p => p.1 = k) then m.map (fun p => if p.1 = k then (k, v) else p)
  else m ++ [(k, v)]

/-- JS `String.prototype.trim`, modelled on the character list (drops
leading and trailing whitespace). -/
def jsTrim (s : String) : String :=
  String.mk (((s.data.dropWhile Char.isWhitespace).reverse.dropWhile
    Char.isWhitespace).reverse)

/-- JS `String.prototype.toLowerCase` (character-wise lowering). -/
def jsToLower (s : String) : String :=
  String.mk (s.data.map Char.toLower)

/-- Splits a character list at LF characters (the LF part of the newline
regex used by `parseCSV`). -/
def splitLFAux : List Char → List Char → List String
  | [], cur => [String.mk cur.reverse]
  | c :: rest, cur =>
    if c = '\n' then String.mk cur.reverse :: splitLFAux rest []
    else splitLFAux rest (c :: cur)

/-- JS `text.split` at newlines (LF), as a total structural function. -/
def splitLF (s : String) : List String :=
  splitLFAux s.data []

/-- remoteImages.ts `parseCsvLine`, one step per character: outside quotes a
comma ends the field and a quote opens a quoted section; inside quotes a
doubled quote is a literal quote and a single quote closes the section. -/
def parseCsvLineAux (cs : List Char) (cur : String) (inQuotes : Bool)
    (out : List String) : List String :=
  match cs, inQuotes with
  | [], _ => out ++ [cur]
  | '"' :: '"' :: rest2, true => parseCsvLineAux rest2 (cur.push '"') true out
  | '"' :: rest, true => parseCsvLineAux rest cur false out
  | ch :: rest, true => parseCsvLineAux rest (cur.push ch) true out
  | ch :: rest, false =>
    if ch = ',' then parseCsvLineAux rest "" false (out ++ [cur])
    else if ch = '"' then parseCsvLineAux rest cur true out
    else parseCsvLineAux rest (cur.push ch) false out

/-- remoteImages.ts `parseCsvLine`: splits one CSV line into trimmed fields. -/
def parseCsvLine (line : String) : List String :=
  (parseCsvLineAux line.data "" false []).map jsTrim

/-- JS `Array.prototype.indexOf` on strings: index of the first occurrence,
`-1` when absent. -/
def indexOfStr : List String → String → Int
  | [], _ => -1
  | a :: rest, x =>
    if a = x then 0
    else
      let r := indexOfStr rest x
      if r < 0 then -1 else r + 1

/-- JS `row[i]` for a field index that may be `-1`/out of range. -/
def rowGet (row : List String) (i : Int) : Option String :=
  if i < 0 then none else row.get? i.toNat

/-- The `(t, k, u)` extraction of one CSV row: header-indexed when a valid
header was detected, positional otherwise. -/
def rowFields (hdr : Bool) (typeIdx keyIdx urlIdx : Int) (row : List String) :
    Option String × Option String × Option String :=
  if hdr then (rowGet row typeIdx, rowGet row keyIdx, rowGet row urlIdx)
  else (rowGet row 0, rowGet row 1, rowGet row 2)

/-- One iteration of the parseCSV row loop: skips the row when any of
type/key/url is missing or empty, otherwise routes it by its (lowercased)
type into the topics or articles table. -/
def processRow (hdr : Bool) (typeIdx keyIdx urlIdx : Int) (acc : RemoteMaps)
    (line : String) : RemoteMaps :=
  let row := parseCsvLine line
  match rowFields hdr typeIdx keyIdx urlIdx row with
  | (some t, some k, some u) =>
    if t = "" || k = "" || u = "" then acc
    else
      let ty := jsToLower t
      if ty = "topic" then { acc with topics := objSet acc.topics k u }
      else if ty = "article" then { acc with articles := objSet acc.articles k u }
      else acc
  | _ => acc

/-- Drops a single leading byte-order mark, as the source's BOM regex does. -/
def stripBOM (s : String) : String :=
  match s.data with
  | c :: rest => if c = '﻿' then String.mk rest else s
  | [] => s

/-- Splitting on the newline regex: split at LF, a CR directly before an LF
belongs to the separator. -/
def dropCR (s : String) : String :=
  match s.data.reverse with
  | c :: rest => if c = '\r' then String.mk rest.reverse else s
  | [] => s

/-- remoteImages.ts `parseCSV`: normalises newlines and BOM, trims and drops
blank lines, detects a `type,key,url` header (`id`/`image` accepted as
aliases), then folds every data row through `processRow`.  Total: a
malformed payload yields whatever rows survived, never an exception. -/
def parseCSV (text : String) : RemoteMaps :=
  let lines := ((splitLF (stripBOM text)).map dropCR).map jsTrim
    |>.filter (fun l => l ≠ "")
  match lines with
  | [] => { topics := [], articles := [] }
  | l0 :: rest =>
    let headerFields := (parseCsvLine l0).map jsToLower
    let typeIdx := indexOfStr headerFields "type"
    let keyIdx :=
      if indexOfStr headerFields "key" ≥ 0 then indexOfStr headerFields "key"
      else indexOfStr headerFields "id"
    let urlIdx :=
      if indexOfStr headerFields "url" ≥ 0 then indexOfStr headerFields "url"
      else indexOfStr headerFields "image"
    let hdr := typeIdx ≥ 0 && keyIdx ≥ 0 && urlIdx ≥ 0
    let dataLines := if hdr then rest else l0 :: rest
    dataLines.foldl (processRow hdr typeIdx keyIdx urlIdx) { topics := [], articles := [] }

/-- The in-memory mapping state of remoteImages.ts: remote maps and the
locally persisted overlay maps. -/
structure MapsState where
  remoteTopicMap : String → Option String
  remoteArticleMap : String → Option String
  localTopicMap : String → Option String
  localArticleMap : String → Option String

/-- remoteImages.ts `getRemoteTopicImage`: local overlay `??` remote. -/
def getRemoteTopicImage (st : MapsState) (topicKey : String) : Option String :=
  match st.localTopicMap topicKey with
  | some v => some v
  | none => st.remoteTopicMap topicKey

/-- remoteImages.ts `getRemoteArticleImage`: local overlay `??` remote. -/
def getRemoteArticleImage (st : MapsState) (articleId : String) : Option String :=
  match st.localArticleMap articleId with
  | some v => some v
  | none => st.remoteArticleMap articleId

end RemoteImages

namespace ImageOverrides

open ArticleEngine (TopicKey topicKeyStr)

/-- The code-level configuration of config/images.ts: the optional site-wide
override constant and the per-topic / per-article default image tables. -/
structure Config where
  siteWideImageOverride : Option String
  topicDefaultImages : TopicKey → Option String
  articleDefaultImages : String → Option String

/-- The per-topic / per-article override maps persisted in localStorage
under `ll-image-overrides:v1` (JSON round-trip assumed faithful). -/
structure Overrides where
  topics : String → Option String
  articles : String → Option String

/-- The browser environment seen by the resolution chain: the execution
context flag, the raw stored site-wide override string, the parsed override
maps and the in-memory remote mapping state. -/
structure Env where
  isPublic : Bool
  storedSiteWide : Option String
  ov : Overrides
  maps : RemoteImages.MapsState

/-- imageOverrides.ts `getSiteWideImageLocal`: the trimmed stored value when
it is non-empty after trimming, otherwise null. -/
def getSiteWideImageLocal (stored : Option String) : Option String :=
  match stored with
  | none => none
  | some v => if v.trim = "" then none else some v.trim

/-- imageOverrides.ts `resolveTopicDefault`: code mapping `||` fallback. -/
def resolveTopicDefault (cfg : Config) (topic : TopicKey) (fallback : String) : String :=
  ifTruthy (cfg.topicDefaultImages topic) fallback

/-- imageOverrides.ts `resolveArticleDefault`: article code default, then
topic code default, then fallback. -/
def resolveArticleDefault (cfg : Config) (articleId : String) (fallback : String)
    (topicKey : Option TopicKey) : String :=
  let topicTail : String :=
    match topicKey with
    | some tk =>
      match cfg.topicDefaultImages tk with
      | some byTopic => if byTopic ≠ "" then byTopic else fallback
      | none => fallback
    | none => fallback
  match cfg.articleDefaultImages articleId with
  | some byArticle => if byArticle ≠ "" then byArticle else topicTail
  | none => topicTail

/-- imageOverrides.ts `setTopicImage`: a no-op on public (no write, no event);
locally sets or clears the per-topic override and reports the change event. -/
def setTopicImage (isPublic : Bool) (ov : Overrides) (topic : TopicKey)
    (src : Option String) : Overrides × Bool :=
  if isPublic then (ov, false)
  else
    match src with
    | some s =>
      if s.trim ≠ "" then
        ({ ov with topics := fun k => if k = topicKeyStr topic then some s.trim else ov.topics k },
         true)
      else
        ({ ov with topics := fun k => if k = topicKeyStr topic then none else ov.topics k },
         true)
    | none =>
      ({ ov with topics := fun k => if k = topicKeyStr topic then none else ov.topics k },
       true)

/-- imageOverrides.ts `setArticleImage`: a no-op on public (no write, no
event); locally sets or clears the per-article override and reports the
change event. -/
def setArticleImage (isPublic : Bool) (ov : Overrides) (articleId : String)
    (src : Option String) : Overrides × Bool :=
  if isPublic then (ov, false)
  else
    match src with
    | some s =>
      if s.trim ≠ "" then
        ({ ov with articles := fun k => if k = articleId then some s.trim else ov.articles k },
         true)
      else
        ({ ov with articles := fun k => if k = articleId then none else ov.articles k },
         true)
    | none =>
      ({ ov with articles := fun k => if k = articleId then none else ov.articles k },
       true)

/-- imageOverrides.ts `getTopicImage`: site-wide override first, then the
public chain (remote, code, fallback) or the local chain (local override,
remote, code, fallback). -/
def getTopicImage (cfg : Config) (env : Env) (topic : TopicKey)
    (defaultSrc : String) : String :=
  let siteWide := orString cfg.siteWideImageOverride (getSiteWideImageLocal env.storedSiteWide)
  ifTruthy siteWide
    (if env.isPublic then
      ifTruthy (RemoteImages.getRemoteTopicImage env.maps (topicKeyStr topic))
        (resolveTopicDefault cfg topic defaultSrc)
    else
      ifTruthy (env.ov.topics (topicKeyStr topic))
        (ifTruthy (RemoteImages.getRemoteTopicImage env.maps (topicKeyStr topic))
          (resolveTopicDefault cfg topic defaultSrc)))

/-- imageOverrides.ts `getArticleImage`: site-wide override first; on public
the chain is remote article, remote topic, code article default, generated
default, code topic default; locally it is local (article, topic), remote
(article, topic), then the code defaults / fallback. -/
def getArticleImage (cfg : Config) (env : Env) (articleId : String)
    (defaultSrc : String) (topicKey : Option TopicKey) : String :=
  let siteWide := orString cfg.siteWideImageOverride (getSiteWideImageLocal env.storedSiteWide)
  let publicTail : String :=
    ifTruthy (cfg.articleDefaultImages articleId)
      (if defaultSrc ≠ "" then defaultSrc
       else
         match topicKey with
         | some tk => ifTruthy (cfg.topicDefaultImages tk) defaultSrc
         | none => defaultSrc)
  let publicChain : String :=
    ifTruthy (RemoteImages.getRemoteArticleImage env.maps articleId)
      (match topicKey with
       | some tk => ifTruthy (RemoteImages.getRemoteTopicImage env.maps (topicKeyStr tk)) publicTail
       | none => publicTail)
  let localTail : String :=
    ifTruthy (RemoteImages.getRemoteArticleImage env.maps articleId)
      (match topicKey with
       | some tk =>
         ifTruthy (RemoteImages.getRemoteTopicImage env.maps (topicKeyStr tk))
           (resolveArticleDefault cfg articleId defaultSrc topicKey)
       | none => resolveArticleDefault cfg articleId defaultSrc topicKey)
  let localChain : String :=
    ifTruthy (env.ov.articles articleId)
      (match topicKey with
       | some tk => ifTruthy (env.ov.topics (topicKeyStr tk)) localTail
       | none => localTail)
  ifTruthy siteWide (if env.isPublic then publicChain else localChain)

/-- The first truthy candidate in a precedence chain, else the fallback:
the shape in which the specification states resolution precedence. -/
def firstTruthy : List (Option String) → String → String
  | [], fallback => fallback
  | c :: rest, fallback => ifTruthy c (firstTruthy rest fallback)

end ImageOverrides

/-! Helper lemmas shared by the claim theorems. -/

theorem ifTruthy_none (k : String) : ifTruthy none k = k := rfl

theorem ifTruthy_some_ne (s : String) (k : String) (h : s ≠ "") :
    ifTruthy (some s) k = s := by
  simp [ifTruthy, h]

theorem orString_some_ne (a b : Option String) (s : String)
    (h : orString a b = some s) : s ≠ "" → orString a b = some s := fun _ => h

theorem cePick_ok (arr : List α) (seed : Nat) (h : arr ≠ []) :
    ContentEngine.pick arr seed =
      .ok (arr.get ⟨seed % arr.length, Nat.mod_lt _ (List.length_pos.mpr h)⟩) := by
  have hz : ¬ arr.length = 0 := by simpa [List.length_eq_zero] using h
  simp [ContentEngine.pick, hz]

theorem cePick_nil (seed : Nat) :
    ContentEngine.pick ([] : List α) seed = .error "Cannot pick from empty array" := rfl

theorem aePick_eq_get (arr : List α) (seed : Nat) (h : arr ≠ []) :
    ArticleEngine.pick arr seed =
      some (arr.get ⟨seed % arr.length, Nat.mod_lt _ (List.length_pos.mpr h)⟩) := by
  simp [ArticleEngine.pick, List.get?_eq_get]

theorem aePick_nil (seed : Nat) : ArticleEngine.pick ([] : List α) seed = none := rfl

theorem aePick_some (arr : List α) (seed : Nat) (h : arr ≠ []) :
    ∃ x, ArticleEngine.pick arr seed = some x :=
  ⟨_, aePick_eq_get arr seed h⟩

theorem rotate_length (arr : List α) (seed : Nat) :
    (ArticleEngine.rotate arr seed).length = arr.length := by
  unfold ArticleEngine.rotate
  split
  · rfl
  · simp [List.length_append]
    omega

theorem rotate_ne_nil (arr : List α) (seed : Nat) (h : arr ≠ []) :
    ArticleEngine.rotate arr seed ≠ [] := by
  intro hc
  apply h
  have := rotate_length arr seed
  rw [hc] at this
  simpa [List.length_eq_zero] using this.symm

theorem sampleDeterministic_length (arr : List α) (count seed : Nat)
    (h : count ≤ arr.length) :
    (ArticleEngine.sampleDeterministic arr count seed).length = count := by
  unfold ArticleEngine.sampleDeterministic
  split
  · simp
    omega
  · split
    · rw [rotate_length]
      omega
    · simp [List.length_take, rotate_length]
      omega

theorem getLast?_append_three (xs : List α) (a b c : α) :
    (xs ++ [a, b, c]).getLast? = some c := by
  rw [List.getLast?_append]
  rfl

theorem takeWhile_append_stop (p : α → Bool) (l1 : List α) (a : α) (l2 : List α)
    (h1 : ∀ x ∈ l1, p x = true) (ha : p a = false) :
    (l1 ++ a :: l2).takeWhile p = l1 := by
  induction l1 with
  | nil => simp [List.takeWhile, ha]
  | cons x xs ih =>
    have hx : p x = true := h1 x (by simp)
    simp [List.takeWhile, hx]
    exact ih (fun y hy => h1 y (by simp [hy]))

theorem dropWhile_append_stop (p : α → Bool) (l1 : List α) (a : α) (l2 : List α)
    (h1 : ∀ x ∈ l1, p x = true) (ha : p a = false) :
    (l1 ++ a :: l2).dropWhile p = a :: l2 := by
  induction l1 with
  | nil => simp [List.dropWhile, ha]
  | cons x xs ih =>
    have hx : p x = true := h1 x (by simp)
    simp [List.dropWhile, hx]
    exact ih (fun y hy => h1 y (by simp [hy]))

theorem digitChar_isDigit (d : Nat) (h : d < 10) : (Nat.digitChar d).isDigit = true := by
  interval_cases d <;> decide

theorem digitChar_toNat (d : Nat) (h : d < 10) : (Nat.digitChar d).toNat = 48 + d := by
  interval_cases d <;> decide

theorem decDigits_ne_nil (n : Nat) : decDigits n ≠ [] := by
  rw [decDigits]
  split <;> simp

theorem decDigits_all_digit (n : Nat) : ∀ c ∈ decDigits n, c.isDigit = true := by
  induction n using Nat.strong_induction_on with
  | _ n ih =>
    rw [decDigits]
    split
    · intro c hc
      simp at hc
      subst hc
      exact digitChar_isDigit n (by omega)
    · intro c hc
      rw [List.mem_append] at hc
      rcases hc with hc | hc
      · exact ih (n / 10) (Nat.div_lt_self (by omega) (by omega)) c hc
      · simp at hc
        subst hc
        exact digitChar_isDigit (n % 10) (Nat.mod_lt _ (by omega))

theorem parseDec_decDigits (n : Nat) : ArticleEngine.parseDec (decDigits n) = n := by
  induction n using Nat.strong_induction_on with
  | _ n ih =>
    rw [decDigits]
    split
    · simp [ArticleEngine.parseDec, digitChar_toNat n (by omega)]
    · rw [ArticleEngine.parseDec, List.foldl_append]
      have hrec := ih (n / 10) (Nat.div_lt_self (by omega) (by omega))
      rw [ArticleEngine.parseDec] at hrec
      rw [hrec]
      simp [digitChar_toNat (n % 10) (Nat.mod_lt _ (by omega))]
      omega

theorem dedupFirst_pair_self (a : String) : ContentEngine.dedupFirst [a, a] = [a] := by
  simp [ContentEngine.dedupFirst, List.enum, List.indexOf, List.findIdx, List.findIdx.go]

theorem scripturePool_ne_nil : ContentEngine.scripturePool ≠ [] := by
  simp [ContentEngine.scripturePool]

theorem quotePoolCE_ne_nil : ContentEngine.quotePool ≠ [] := by
  simp [ContentEngine.quotePool]

theorem titleFragments_ne_nil (t : ReflectionTheme) : ContentEngine.titleFragments t ≠ [] := by
  cases t <;> simp [ContentEngine.titleFragments]

theorem prayers_ne_nil : ContentEngine.prayers ≠ [] := by
  simp [ContentEngine.prayers]

theorem questionsPool_ne_nil : ContentEngine.questionsPool ≠ [] := by
  simp [ContentEngine.questionsPool]

theorem questionsPool_length : ContentEngine.questionsPool.length = 4 := rfl

theorem titlePool_ne_nil (t : ArticleEngine.TopicKey) : ArticleEngine.titlePool t ≠ [] := by
  cases t <;> simp [ArticleEngine.titlePool]

theorem excerptPool_ne_nil (t : ArticleEngine.TopicKey) : ArticleEngine.excerptPool t ≠ [] := by
  cases t <;> simp [ArticleEngine.excerptPool]

theorem paragraphsByTopic_len (t : ArticleEngine.TopicKey) :
    6 ≤ (ArticleEngine.paragraphsByTopic t).length := by
  cases t <;> simp [ArticleEngine.paragraphsByTopic]

theorem practiceByTopic_ne_nil (t : ArticleEngine.TopicKey) :
    ArticleEngine.practiceByTopic t ≠ [] := by
  cases t <;> simp [ArticleEngine.practiceByTopic]

theorem scriptureByTopic_ne_nil (t : ArticleEngine.TopicKey) :
    ArticleEngine.scriptureByTopic t ≠ [] := by
  cases t <;> simp [ArticleEngine.scriptureByTopic]

theorem extraTags_ne_nil (t : ArticleEngine.TopicKey) : ArticleEngine.extraTags t ≠ [] := by
  cases t <;> simp [ArticleEngine.extraTags]

theorem generalConnective_ne_nil : ArticleEngine.generalConnective ≠ [] := by
  simp [ArticleEngine.generalConnective]

theorem quotePoolAE_ne_nil : ArticleEngine.quotePool ≠ [] := by
  simp [ArticleEngine.quotePool]

theorem styleWords_ne_nil : ArticleEngine.styleWords ≠ [] := by
  simp [ArticleEngine.styleWords]

theorem palette_ne_nil : ArticleEngine.palette ≠ [] := by
  simp [ArticleEngine.palette]

theorem buildBody_parts (topic : ArticleEngine.TopicKey) (seed : Nat) :
    ∃ scripturePara connect practice,
      ArticleEngine.pick ArticleEngine.generalConnective (seed + 307) = some connect ∧
      ArticleEngine.pick (ArticleEngine.practiceByTopic topic) (seed + 409) = some practice ∧
      ArticleEngine.buildBody topic seed =
        some (ArticleEngine.sampleDeterministic (ArticleEngine.paragraphsByTopic topic)
                (3 + seed % 2) (seed + 101) ++ [connect, scripturePara, practice]) := by
  obtain ⟨scr, hscr⟩ := aePick_some (ArticleEngine.scriptureByTopic topic) (seed + 211)
    (scriptureByTopic_ne_nil topic)
  obtain ⟨connect, hconnect⟩ := aePick_some ArticleEngine.generalConnective (seed + 307)
    generalConnective_ne_nil
  obtain ⟨practice, hpractice⟩ := aePick_some (ArticleEngine.practiceByTopic topic) (seed + 409)
    (practiceByTopic_ne_nil topic)
  refine ⟨"Scripture: “" ++ scr.text ++ "” (" ++ scr.ref ++ ").", connect, practice,
    hconnect, hpractice, ?_⟩
  simp [ArticleEngine.buildBody, hscr, hconnect, hpractice]

theorem buildBody_some (topic : ArticleEngine.TopicKey) (seed : Nat) :
    ∃ b, ArticleEngine.buildBody topic seed = some b := by
  obtain ⟨s, c, p, _, _, h⟩ := buildBody_parts topic seed
  exact ⟨_, h⟩

theorem buildImageQuery_some (topic : ArticleEngine.TopicKey) (title : String) (seed : Nat) :
    ∃ q, ArticleEngine.buildImageQuery topic title seed = some q := by
  obtain ⟨w1, hw1⟩ := aePick_some ArticleEngine.styleWords (seed + 17) styleWords_ne_nil
  obtain ⟨w2, hw2⟩ := aePick_some (ArticleEngine.rotate ArticleEngine.styleWords (seed + 31))
    (seed + 5) (rotate_ne_nil _ _ styleWords_ne_nil)
  obtain ⟨w3, hw3⟩ := aePick_some (ArticleEngine.rotate ArticleEngine.styleWords (seed + 47))
    (seed + 23) (rotate_ne_nil _ _ styleWords_ne_nil)
  obtain ⟨w4, hw4⟩ := aePick_some (ArticleEngine.rotate ArticleEngine.styleWords (seed + 59))
    (seed + 37) (rotate_ne_nil _ _ styleWords_ne_nil)
  obtain ⟨c1, hc1⟩ := aePick_some ArticleEngine.palette (seed + 71) palette_ne_nil
  obtain ⟨c2, hc2⟩ := aePick_some (ArticleEngine.rotate ArticleEngine.palette (seed + 83))
    (seed + 19) (rotate_ne_nil _ _ palette_ne_nil)
  refine ⟨String.intercalate " " (ArticleEngine.extractKeywords title (seed + 1) ++
    [ArticleEngine.keywordFor topic, w1, w2, w3, w4, c1, c2]), ?_⟩
  simp [ArticleEngine.buildImageQuery, hw1, hw2, hw3, hw4, hc1, hc2]

theorem generateArticleCore_some (topic : ArticleEngine.TopicKey) (dateISO : String)
    (index : Nat) :
    ∃ a, ArticleEngine.generateArticleCore topic dateISO index = some a ∧
      a.id = ArticleEngine.articleId topic dateISO index ∧
      a.topic = topic ∧ a.dateISO = dateISO := by
  have hsb : ∃ sb, ArticleEngine.hash
      (ArticleEngine.topicKeyStr topic ++ "|" ++ dateISO ++ "|" ++ natToStr index) = sb :=
    ⟨_, rfl⟩
  obtain ⟨sb, hsb⟩ := hsb
  obtain ⟨title, htitle⟩ := aePick_some (ArticleEngine.titlePool topic) (sb + 3)
    (titlePool_ne_nil topic)
  obtain ⟨excerpt, hexcerpt⟩ := aePick_some (ArticleEngine.excerptPool topic) (sb + 7)
    (excerptPool_ne_nil topic)
  obtain ⟨quote, hquote⟩ := aePick_some ArticleEngine.quotePool (sb + 11) quotePoolAE_ne_nil
  obtain ⟨body, hbody⟩ := buildBody_some topic (sb + 13)
  obtain ⟨q, hq⟩ := buildImageQuery_some topic title (sb + 19)
  obtain ⟨extra, hextra⟩ := aePick_some (ArticleEngine.extraTags topic) (sb + 29)
    (extraTags_ne_nil topic)
  refine ⟨{
    id := ArticleEngine.articleId topic dateISO index,
    title := title,
    excerpt := excerpt,
    image := "https://pub-cdn.sider.ai/u/U0AWH6J28LO/web-coder/6896d87314f019f2a83e5a14/resource/ab6ea90d-af37-40dd-879c-6732198db0be.jpg",
    tags := [ArticleEngine.humanLabel topic, "daily", extra],
    body := body,
    quote := quote,
    topic := topic,
    dateISO := dateISO }, ?_, rfl, rfl, rfl⟩
  simp [ArticleEngine.generateArticleCore, hsb, htitle, hexcerpt, hquote, hbody, hq, hextra]

theorem cePick_some (arr : List α) (seed : Nat) (h : arr ≠ []) :
    ∃ x, ContentEngine.pick arr seed = .ok x :=
  ⟨_, cePick_ok arr seed h⟩

theorem list_get_mod_congr (l : List α) (i j : Nat) (hi : i % l.length < l.length)
    (hj : j % l.length < l.length) (h : i % l.length = j % l.length) :
    l.get ⟨i % l.length, hi⟩ = l.get ⟨j % l.length, hj⟩ := by
  congr 1
  exact Fin.ext h

theorem exceptBind_ok (a : α) (f : α → Except ε β) :
    (Except.ok a >>= f : Except ε β) = f a := rfl

theorem exceptPure_eq_ok (a : α) : (pure a : Except ε α) = Except.ok a := rfl

theorem exceptMap_ok (f : α → β) (a : α) :
    (f <$> Except.ok a : Except ε β) = Except.ok (f a) := rfl

theorem exceptBind_error (e : ε) (f : α → Except ε β) :
    (Except.error e >>= f : Except ε β) = .error e := rfl

theorem mapM_some_of_forall (f : α → Option β) (l : List α)
    (h : ∀ a ∈ l, ∃ b, f a = some b) : ∃ bs, l.mapM f = some bs := by
  induction l with
  | nil => exact ⟨[], rfl⟩
  | cons x xs ih =>
    obtain ⟨b, hb⟩ := h x (by simp)
    obtain ⟨bs, hbs⟩ := ih (fun a ha => h a (by simp [ha]))
    refine ⟨b :: bs, ?_⟩
    rw [List.mapM_cons, hb, hbs]
    rfl

theorem listArticlesForDate_some (d : DateDays) (n : Nat) :
    ∃ arts, ArticleEngine.listArticlesForDate d n = some arts := by
  have h : ∀ t ∈ ArticleEngine.topics, ∃ g,
      (List.range n).mapM (fun i =>
        (ArticleEngine.generateArticleCore t.key (ArticleEngine.toDateISO d) (i + 1)).map
          ArticleEngine.toCard) = some g := by
    intro t _
    apply mapM_some_of_forall
    intro i _
    obtain ⟨a, ha, -, -, -⟩ :=
      generateArticleCore_some t.key (ArticleEngine.toDateISO d) (i + 1)
    exact ⟨ArticleEngine.toCard a, by simp [ha]⟩
  obtain ⟨groups, hgroups⟩ := mapM_some_of_forall _ ArticleEngine.topics h
  refine ⟨groups.flatten, ?_⟩
  unfold ArticleEngine.listArticlesForDate
  dsimp only
  rw [hgroups]
  rfl

theorem generateReflection_default (d : DateDays) (t : ReflectionTheme) :
    ∃ r q, ContentEngine.generateReflection ContentEngine.defaultPools d t = .ok r ∧
      r.questions = [q] := by
  have hsb : ∃ sb, ContentEngine.hash (dateToISO d ++ "|" ++ themeStr t) = sb := ⟨_, rfl⟩
  obtain ⟨sb, hsb⟩ := hsb
  obtain ⟨scr, hscr⟩ := cePick_some ContentEngine.scripturePool (sb + 1) scripturePool_ne_nil
  obtain ⟨qt, hqt⟩ := cePick_some ContentEngine.quotePool (sb + 7) quotePoolCE_ne_nil
  obtain ⟨title, htitle⟩ := cePick_some (ContentEngine.titleFragments t) (sb + 13)
    (titleFragments_ne_nil t)
  obtain ⟨prayer, hprayer⟩ := cePick_some ContentEngine.prayers (sb + 17) prayers_ne_nil
  have hq12 : ContentEngine.pick ContentEngine.questionsPool (sb + 19) =
      ContentEngine.pick ContentEngine.questionsPool (sb + 23) := by
    rw [cePick_ok _ _ questionsPool_ne_nil, cePick_ok _ _ questionsPool_ne_nil]
    exact congrArg Except.ok (list_get_mod_congr ContentEngine.questionsPool (sb + 19)
      (sb + 23) _ _ (by rw [questionsPool_length]; omega))
  obtain ⟨q1, hq1⟩ := cePick_some ContentEngine.questionsPool (sb + 19) questionsPool_ne_nil
  have hq2 : ContentEngine.pick ContentEngine.questionsPool (sb + 23) = .ok q1 :=
    hq12 ▸ hq1
  refine ⟨{
    dateISO := dateToISO d,
    theme := t,
    title := title,
    scripture := scr,
    quote := qt,
    body := ContentEngine.makeBody ContentEngine.defaultPools t scr qt sb,
    prayer := prayer,
    questions := [q1],
    tags := [ContentEngine.humanizeTheme t, "daily", "reflection"] }, q1, ?_, rfl⟩
  simp only [ContentEngine.generateReflection, ContentEngine.defaultPools, hsb, hscr, hqt,
    htitle, hprayer, hq1, hq2, exceptBind_ok, exceptPure_eq_ok, dedupFirst_pair_self]

theorem getReflectionForDate_default_ok (st : ContentEngine.ReflectionStore)
    (d : DateDays) (t : ReflectionTheme) :
    ∃ r st', ContentEngine.getReflectionForDate ContentEngine.defaultPools st d t =
      .ok (r, st') := by
  unfold ContentEngine.getReflectionForDate
  cases h : ContentEngine.getStoredReflection (ContentEngine.reflectionKey (dateToISO d) t) st with
  | some r => exact ⟨r, st, by simp [h]⟩
  | none =>
    obtain ⟨r, q, hr, -⟩ := generateReflection_default d t
    exact ⟨r, ContentEngine.storeReflection (ContentEngine.reflectionKey (dateToISO d) t) r st,
      by simp [h, hr, exceptMap_ok]⟩

/-! Claim theorems. -/

/-- C9: In the public execution context, for every topic key, article id and
value argument (including null), `setTopicImage` and `setArticleImage` are
no-ops: the persisted override maps are returned unchanged and no change
notification is emitted. -/
theorem c9_set_image_public_noop :
    ∀ (ov : ImageOverrides.Overrides) (topic : ArticleEngine.TopicKey)
      (articleId : String) (src : Option String),
      ImageOverrides.setTopicImage true ov topic src = (ov, false) ∧
      ImageOverrides.setArticleImage true ov articleId src = (ov, false) := by
  intro ov topic articleId src
  exact ⟨rfl, rfl⟩

/-- C5 counterexample: on an empty list the article engine's `pick` does not
fail with an error — it evaluates to `undefined` (`none`), because it has no
emptiness check; only the reflection engine's `pick` raises the explicit
"Cannot pick from empty array" error.  This refutes the claim that both
engines fail with an explicit empty-input error. -/
theorem c5_counterexample :
    ArticleEngine.pick ([] : List String) 0 = none ∧
    ContentEngine.pick ([] : List String) 0 = .error "Cannot pick from empty array" :=
  ⟨rfl, rfl⟩

/-- C5 (amended): for every seed, the reflection engine's `pick` fails with
the explicit "Cannot pick from empty array" error on an empty list, while the
article engine's `pick` performs no emptiness check and yields `undefined`
(`none`); on every non-empty list both return the element at index
`seed mod length`. -/
theorem c5_pick_amended :
    ∀ (α : Type) (seed : Nat),
      ContentEngine.pick ([] : List α) seed = .error "Cannot pick from empty array" ∧
      ArticleEngine.pick ([] : List α) seed = none ∧
      ∀ (arr : List α) (h : arr ≠ []),
        ContentEngine.pick arr seed =
          .ok (arr.get ⟨seed % arr.length, Nat.mod_lt _ (List.length_pos.mpr h)⟩) ∧
        ArticleEngine.pick arr seed =
          some (arr.get ⟨seed % arr.length, Nat.mod_lt _ (List.length_pos.mpr h)⟩) := by
  intro α seed
  refine ⟨rfl, rfl, fun arr h => ⟨cePick_ok arr seed h, aePick_eq_get arr seed h⟩⟩

/-- Witness for the amended C5 at a concrete non-empty list. -/
theorem c5_pick_amended_witness :
    ContentEngine.pick ["a", "b", "c"] 7 = .ok "b" ∧
    ArticleEngine.pick ["a", "b", "c"] 7 = some "b" := by
  obtain ⟨-, -, h3⟩ := c5_pick_amended String 7
  obtain ⟨hc, ha⟩ := h3 ["a", "b", "c"] (by simp)
  exact ⟨hc.trans rfl, ha.trans rfl⟩

/-- C10: for every date and theme, the questions list of the generated
reflection has no duplicates and length 1 or 2: two seeded picks are taken
from the questions pool and de-duplicated (with the source's pool the two
picks always coincide, so the list is a singleton, which satisfies the
claim). -/
theorem c10_reflection_questions :
    ∀ (d : DateDays) (t : ReflectionTheme),
      ∃ r, ContentEngine.generateReflection ContentEngine.defaultPools d t = .ok r ∧
        r.questions.Nodup ∧ (r.questions.length = 1 ∨ r.questions.length = 2) := by
  intro d t
  obtain ⟨r, q, hr, hq⟩ := generateReflection_default d t
  exact ⟨r, hr, by rw [hq]; simp, by rw [hq]; left; rfl⟩

/-- C7: for every topic and seed, the synthesized body consists of
`3 + (seed mod 2)` (hence between 3 and 6) paragraphs sampled from the
topic-specific pool, followed by one connective paragraph at the fixed
position right after the core, a scripture paragraph, and the practice
paragraph last. -/
theorem c7_buildBody_structure :
    ∀ (topic : ArticleEngine.TopicKey) (seed : Nat),
      ∃ body scripturePara connect practice,
        ArticleEngine.pick ArticleEngine.generalConnective (seed + 307) = some connect ∧
        ArticleEngine.pick (ArticleEngine.practiceByTopic topic) (seed + 409) = some practice ∧
        ArticleEngine.buildBody topic seed = some body ∧
        body = ArticleEngine.sampleDeterministic (ArticleEngine.paragraphsByTopic topic)
          (3 + seed % 2) (seed + 101) ++ [connect, scripturePara, practice] ∧
        (ArticleEngine.sampleDeterministic (ArticleEngine.paragraphsByTopic topic)
          (3 + seed % 2) (seed + 101)).length = 3 + seed % 2 ∧
        3 ≤ 3 + seed % 2 ∧ 3 + seed % 2 ≤ 6 ∧
        body.getLast? = some practice := by
  intro topic seed
  obtain ⟨sp, c, p, hc, hp, hb⟩ := buildBody_parts topic seed
  have hcount : 3 + seed % 2 ≤ (ArticleEngine.paragraphsByTopic topic).length := by
    have := paragraphsByTopic_len topic
    omega
  have hlen := sampleDeterministic_length (ArticleEngine.paragraphsByTopic topic)
    (3 + seed % 2) (seed + 101) hcount
  refine ⟨_, sp, c, p, hc, hp, hb, rfl, hlen, by omega, by omega, ?_⟩
  exact getLast?_append_three _ c sp p

/-- C1: whenever the site-wide override resolves to a non-empty value
(config constant `||` locally stored value), `getTopicImage` and
`getArticleImage` return exactly that value, for every topic key, article
id, default source and optional topic key, regardless of remote mappings,
local overrides or code defaults, in both execution contexts. -/
theorem c1_sitewide_override_wins :
    ∀ (cfg : ImageOverrides.Config) (env : ImageOverrides.Env)
      (topic : ArticleEngine.TopicKey) (articleId : String) (defaultSrc : String)
      (topicKey : Option ArticleEngine.TopicKey) (s : String),
      orString cfg.siteWideImageOverride
        (ImageOverrides.getSiteWideImageLocal env.storedSiteWide) = some s →
      s ≠ "" →
      ImageOverrides.getTopicImage cfg env topic defaultSrc = s ∧
      ImageOverrides.getArticleImage cfg env articleId defaultSrc topicKey = s := by
  intro cfg env topic articleId defaultSrc topicKey s h hs
  constructor
  · unfold ImageOverrides.getTopicImage
    rw [h]
    exact ifTruthy_some_ne s _ hs
  · unfold ImageOverrides.getArticleImage
    rw [h]
    exact ifTruthy_some_ne s _ hs

/-- Witness for C1 at a concrete configuration with the override set. -/
theorem c1_sitewide_override_wins_witness :
    ImageOverrides.getTopicImage
      { siteWideImageOverride := some "https://site.example/w.png",
        topicDefaultImages := fun _ => none, articleDefaultImages := fun _ => none }
      { isPublic := true, storedSiteWide := none,
        ov := { topics := fun _ => none, articles := fun _ => none },
        maps := { remoteTopicMap := fun _ => none, remoteArticleMap := fun _ => none,
                  localTopicMap := fun _ => none, localArticleMap := fun _ => none } }
      ArticleEngine.TopicKey.ethics "gen" = "https://site.example/w.png" ∧
    ImageOverrides.getArticleImage
      { siteWideImageOverride := some "https://site.example/w.png",
        topicDefaultImages := fun _ => none, articleDefaultImages := fun _ => none }
      { isPublic := true, storedSiteWide := none,
        ov := { topics := fun _ => none, articles := fun _ => none },
        maps := { remoteTopicMap := fun _ => none, remoteArticleMap := fun _ => none,
                  localTopicMap := fun _ => none, localArticleMap := fun _ => none } }
      "ethics-20250811-1" "gen" (some ArticleEngine.TopicKey.ethics) =
      "https://site.example/w.png" :=
  c1_sitewide_override_wins _ _ ArticleEngine.TopicKey.ethics "ethics-20250811-1" "gen"
    (some ArticleEngine.TopicKey.ethics) "https://site.example/w.png" rfl (by simp)

/-- C2 counterexample: in the public context with no site-wide override, no
remote entries and no per-article code default, but a per-topic code default
configured, `getArticleImage` returns the generated per-article default, not
the per-topic code default — the claim's stated order is wrong at the last
two steps. -/
theorem c2_counterexample :
    ImageOverrides.getArticleImage
      { siteWideImageOverride := none,
        topicDefaultImages := fun t =>
          if t = ArticleEngine.TopicKey.ethics then some "https://code.example/topic.jpg"
          else none,
        articleDefaultImages := fun _ => none }
      { isPublic := true, storedSiteWide := none,
        ov := { topics := fun _ => none, articles := fun _ => none },
        maps := { remoteTopicMap := fun _ => none, remoteArticleMap := fun _ => none,
                  localTopicMap := fun _ => none, localArticleMap := fun _ => none } }
      "ethics-20250811-1" "https://generated.example/g.jpg"
      (some ArticleEngine.TopicKey.ethics) = "https://generated.example/g.jpg" ∧
    "https://generated.example/g.jpg" ≠ "https://code.example/topic.jpg" := by
  constructor
  · rfl
  · simp

/-- C2 (amended): in the public execution context with the site-wide
override unset, `getArticleImage` resolves in the order: remote article
mapping, remote topic mapping, code-level per-article default, generated
default, then code-level per-topic default (the per-topic code default is
reached only when the generated default is empty). -/
theorem c2_public_article_order_amended :
    ∀ (cfg : ImageOverrides.Config) (env : ImageOverrides.Env) (articleId : String)
      (defaultSrc : String) (topicKey : Option ArticleEngine.TopicKey),
      env.isPublic = true →
      orString cfg.siteWideImageOverride
        (ImageOverrides.getSiteWideImageLocal env.storedSiteWide) = none →
      ImageOverrides.getArticleImage cfg env articleId defaultSrc topicKey =
        ImageOverrides.firstTruthy
          [RemoteImages.getRemoteArticleImage env.maps articleId,
           topicKey.bind (fun tk =>
             RemoteImages.getRemoteTopicImage env.maps (ArticleEngine.topicKeyStr tk)),
           cfg.articleDefaultImages articleId,
           some defaultSrc,
           topicKey.bind (fun tk => cfg.topicDefaultImages tk)]
          defaultSrc := by
  intro cfg env articleId defaultSrc topicKey hpub hsw
  unfold ImageOverrides.getArticleImage
  rw [hsw, hpub]
  cases topicKey with
  | none =>
    by_cases hds : defaultSrc = "" <;>
      simp [ImageOverrides.firstTruthy, ifTruthy, hds]
  | some tk =>
    by_cases hds : defaultSrc = "" <;>
      simp [ImageOverrides.firstTruthy, ifTruthy, hds]

/-- Witness for the amended C2 at a concrete public environment. -/
theorem c2_public_article_order_amended_witness :
    ImageOverrides.getArticleImage
      { siteWideImageOverride := none,
        topicDefaultImages := fun _ => none, articleDefaultImages := fun _ => none }
      { isPublic := true, storedSiteWide := none,
        ov := { topics := fun _ => none, articles := fun _ => none },
        maps := { remoteTopicMap := fun _ => none, remoteArticleMap := fun _ => none,
                  localTopicMap := fun _ => none, localArticleMap := fun _ => none } }
      "ethics-20250811-1" "gen" none =
    ImageOverrides.firstTruthy
      [RemoteImages.getRemoteArticleImage
        { remoteTopicMap := fun _ => none, remoteArticleMap := fun _ => none,
          localTopicMap := fun _ => none, localArticleMap := fun _ => none } "ethics-20250811-1",
       none, none, some "gen", none] "gen" :=
  c2_public_article_order_amended _ _ "ethics-20250811-1" "gen" none rfl rfl

/-- C3: whenever a reflection is already stored under the cache key for
`(dateISO of d, theme)`, `getReflectionForDate` returns it verbatim and
leaves the store unchanged; consequently two successive calls with the same
arguments return equal reflections even if the content pools are replaced
between the calls. -/
theorem c3_reflection_cache :
    (∀ (pools : ContentEngine.Pools) (st : ContentEngine.ReflectionStore)
       (d : DateDays) (t : ReflectionTheme) (r : Reflection),
       ContentEngine.getStoredReflection (ContentEngine.reflectionKey (dateToISO d) t) st =
         some r →
       ContentEngine.getReflectionForDate pools st d t = .ok (r, st)) ∧
    (∀ (pools1 pools2 : ContentEngine.Pools) (st : ContentEngine.ReflectionStore)
       (d : DateDays) (t : ReflectionTheme) (r1 : Reflection)
       (st1 : ContentEngine.ReflectionStore),
       ContentEngine.getReflectionForDate pools1 st d t = .ok (r1, st1) →
       ContentEngine.getReflectionForDate pools2 st1 d t = .ok (r1, st1)) := by
  constructor
  · intro pools st d t r h
    unfold ContentEngine.getReflectionForDate
    dsimp only
    rw [h]
  · intro pools1 pools2 st d t r1 st1 h1
    unfold ContentEngine.getReflectionForDate at h1 ⊢
    dsimp only at h1 ⊢
    cases hstored : ContentEngine.getStoredReflection
        (ContentEngine.reflectionKey (dateToISO d) t) st with
    | some r =>
      rw [hstored] at h1
      injection h1 with h1
      injection h1 with hr hst
      subst hr
      subst hst
      rw [hstored]
    | none =>
      rw [hstored] at h1
      dsimp only at h1
      cases hgen : ContentEngine.generateReflection pools1 d t with
      | error e =>
        rw [hgen, exceptBind_error] at h1
        exact Except.noConfusion h1
      | ok g =>
        rw [hgen, exceptBind_ok, exceptPure_eq_ok] at h1
        injection h1 with h1
        injection h1 with hr hst
        rw [← hr, ← hst]
        have hlook : ContentEngine.getStoredReflection
            (ContentEngine.reflectionKey (dateToISO d) t)
            (ContentEngine.storeReflection
              (ContentEngine.reflectionKey (dateToISO d) t) g st) = some g := by
          simp [ContentEngine.getStoredReflection, ContentEngine.storeReflection]
        rw [hlook]

/-- Witness for C3: a store that already holds a reflection under the key
for day 0 (1970-01-01) and theme mindfulness is returned verbatim. -/
theorem c3_reflection_cache_witness :
    ContentEngine.getReflectionForDate ContentEngine.defaultPools
      [(ContentEngine.reflectionKey (dateToISO 0) ReflectionTheme.mindfulness,
        { dateISO := "1970-01-01", theme := ReflectionTheme.mindfulness, title := "T",
          scripture := { text := "S", ref := "R" }, quote := { text := "Q", author := "A" },
          body := [], prayer := "P", questions := [], tags := [] })]
      0 ReflectionTheme.mindfulness =
    .ok ({ dateISO := "1970-01-01", theme := ReflectionTheme.mindfulness, title := "T",
           scripture := { text := "S", ref := "R" }, quote := { text := "Q", author := "A" },
           body := [], prayer := "P", questions := [], tags := [] },
         [(ContentEngine.reflectionKey (dateToISO 0) ReflectionTheme.mindfulness,
           { dateISO := "1970-01-01", theme := ReflectionTheme.mindfulness, title := "T",
             scripture := { text := "S", ref := "R" }, quote := { text := "Q", author := "A" },
             body := [], prayer := "P", questions := [], tags := [] })]) :=
  c3_reflection_cache.1 ContentEngine.defaultPools _ 0 ReflectionTheme.mindfulness _ rfl

/-- C8: `parseCSV` is total (never throws): every row whose type lowercases
to `topic` goes to the topics table and every `article` row to the articles
table, rows missing any of type/key/url (or with an empty field) are skipped
without affecting the accumulated tables, and the concrete two-line input
parses to exactly the expected maps. -/
theorem c8_parseCSV_spec :
    RemoteImages.parseCSV "type,key,url\ntopic,ethics,https://x/y.jpg" =
      { topics := [("ethics", "https://x/y.jpg")], articles := [] } ∧
    (∀ (hdr : Bool) (ti ki ui : Int) (acc : RemoteImages.RemoteMaps) (line : String)
       (t k u : String),
       RemoteImages.rowFields hdr ti ki ui (RemoteImages.parseCsvLine line) =
         (some t, some k, some u) →
       t ≠ "" → k ≠ "" → u ≠ "" →
       (RemoteImages.jsToLower t = "topic" →
         RemoteImages.processRow hdr ti ki ui acc line =
           { topics := RemoteImages.objSet acc.topics k u, articles := acc.articles }) ∧
       (RemoteImages.jsToLower t = "article" →
         RemoteImages.processRow hdr ti ki ui acc line =
           { topics := acc.topics, articles := RemoteImages.objSet acc.articles k u }) ∧
       (RemoteImages.jsToLower t ≠ "topic" → RemoteImages.jsToLower t ≠ "article" →
         RemoteImages.processRow hdr ti ki ui acc line = acc)) ∧
    (∀ (hdr : Bool) (ti ki ui : Int) (acc : RemoteImages.RemoteMaps) (line : String),
       (∀ t k u, RemoteImages.rowFields hdr ti ki ui (RemoteImages.parseCsvLine line) =
         (some t, some k, some u) → t = "" ∨ k = "" ∨ u = "") →
       RemoteImages.processRow hdr ti ki ui acc line = acc) := by
  refine ⟨by decide, ?_, ?_⟩
  · intro hdr ti ki ui acc line t k u hfields ht hk hu
    refine ⟨?_, ?_, ?_⟩
    · intro htopic
      unfold RemoteImages.processRow
      dsimp only
      rw [hfields]
      simp [ht, hk, hu, htopic]
    · intro harticle
      unfold RemoteImages.processRow
      dsimp only
      rw [hfields]
      simp [ht, hk, hu, harticle]
    · intro hnt hna
      unfold RemoteImages.processRow
      dsimp only
      rw [hfields]
      simp [ht, hk, hu, hnt, hna]
  · intro hdr ti ki ui acc line hmiss
    unfold RemoteImages.processRow
    dsimp only
    cases hfields : RemoteImages.rowFields hdr ti ki ui (RemoteImages.parseCsvLine line) with
    | mk tOpt rest =>
      cases rest with
      | mk kOpt uOpt =>
        cases tOpt with
        | none => rfl
        | some t =>
          cases kOpt with
          | none => rfl
          | some k =>
            cases uOpt with
            | none => rfl
            | some u =>
              have := hmiss t k u hfields
              rcases this with h | h | h <;> simp [h]

/-- Witness for C8: a positional topic row updates the topics table, and a
row missing its url field is skipped. -/
theorem c8_parseCSV_spec_witness :
    RemoteImages.processRow false 0 1 2 { topics := [], articles := [] }
      "topic,ethics,https://x/y.jpg" =
      { topics := [("ethics", "https://x/y.jpg")], articles := [] } ∧
    RemoteImages.processRow false 0 1 2 { topics := [], articles := [] } "topic,ethics" =
      { topics := [], articles := [] } := by
  constructor
  · have h := (c8_parseCSV_spec.2.1 false 0 1 2 { topics := [], articles := [] }
      "topic,ethics,https://x/y.jpg" "topic" "ethics" "https://x/y.jpg" rfl
      (by simp) (by simp) (by simp)).1 rfl
    rw [h]
    rfl
  · apply c8_parseCSV_spec.2.2 false 0 1 2 { topics := [], articles := [] } "topic,ethics"
    intro t k u h
    have hval : RemoteImages.rowFields false 0 1 2
        (RemoteImages.parseCsvLine "topic,ethics") = (some "topic", some "ethics", none) := rfl
    rw [hval] at h
    injection h with h1 h23
    injection h23 with h2 h3
    exact Option.noConfusion h3

theorem exceptToOption_ok (a : α) : (Except.ok a : Except ε α).toOption = some a := rfl

/-- C6: `buildDailyDigest date` returns the mindfulness reflection for the
date plus the first 3 synthesized articles for the date; `buildWeeklyDigest
endDate` returns the faith-reason reflection anchored at `endDate` plus one
article per day over the 7 days ending at `endDate` going backward, skipping
days without an article and capped at 7 items. -/
theorem c6_digest_composition :
    ∀ (fmt : DateDays → String) (st : ContentEngine.ReflectionStore) (d e : DateDays),
      (∃ res st', NewsletterDigest.buildDailyDigest fmt st d = some (res, st') ∧
        ContentEngine.getReflectionForDate ContentEngine.defaultPools st d
          ReflectionTheme.mindfulness = .ok (res.reflection, st') ∧
        ∃ arts, ArticleEngine.listArticlesForDate d 1 = some arts ∧
          res.articles = arts.take 3) ∧
      (∃ res st', NewsletterDigest.buildWeeklyDigest fmt st e = some (res, st') ∧
        ContentEngine.getReflectionForDate ContentEngine.defaultPools st e
          ReflectionTheme.faithReason = .ok (res.reflection, st') ∧
        NewsletterDigest.previousDays e 7 = (List.range 7).map (fun i => e - (i : Int)) ∧
        ∃ perDay, (NewsletterDigest.previousDays e 7).mapM
            (fun dd => (ArticleEngine.listArticlesForDate dd 1).map List.head?) =
            some perDay ∧
          res.articles = (perDay.filterMap id).take 7 ∧ res.articles.length ≤ 7) := by
  intro fmt st d e
  constructor
  · obtain ⟨r, st1, hr⟩ := getReflectionForDate_default_ok st d .mindfulness
    obtain ⟨arts, harts⟩ := listArticlesForDate_some d 1
    refine ⟨{
      subject := "Daily • " ++ fmt d,
      reflection := r,
      articles := arts.take 3 }, st1, ?_, hr, arts, harts, rfl⟩
    unfold NewsletterDigest.buildDailyDigest
    rw [hr]
    simp [exceptToOption_ok, harts]
  · obtain ⟨r, st1, hr⟩ := getReflectionForDate_default_ok st e .faithReason
    have hper : ∀ dd ∈ NewsletterDigest.previousDays e 7,
        ∃ b, (ArticleEngine.listArticlesForDate dd 1).map List.head? = some b := by
      intro dd _
      obtain ⟨a, ha⟩ := listArticlesForDate_some dd 1
      exact ⟨a.head?, by rw [ha]; rfl⟩
    obtain ⟨perDay, hperDay⟩ := mapM_some_of_forall _ _ hper
    refine ⟨{
      subject := "Weekly Digest • " ++
        (fmt ((NewsletterDigest.previousDays e 7).getD
          ((NewsletterDigest.previousDays e 7).length - 1) e) ++ " – " ++
         fmt ((NewsletterDigest.previousDays e 7).getD 0 e)),
      reflection := r,
      articles := (perDay.filterMap id).take 7 }, st1, ?_, hr, rfl, perDay, hperDay, rfl, ?_⟩
    · unfold NewsletterDigest.buildWeeklyDigest
      dsimp only
      rw [hr, exceptToOption_ok]
      rw [hperDay]
      rfl
    · simp

theorem isDigit_ne_dash (c : Char) (h : c.isDigit = true) : c ≠ '-' := by
  intro hc
  subst hc
  exact absurd h (by decide)

theorem string_mk_data (s : String) : String.mk s.data = s := rfl

theorem topicChars_reverse_not_empty (t : ArticleEngine.TopicKey) :
    ((ArticleEngine.topicKeyStr t).data.reverse.isEmpty) = false := by
  cases t <;> decide

theorem topicChars_reverse_all (t : ArticleEngine.TopicKey) :
    ((ArticleEngine.topicKeyStr t).data.reverse.all ArticleEngine.isTopicChar) = true := by
  cases t <;> decide

theorem topicOfString_key (t : ArticleEngine.TopicKey) :
    ArticleEngine.topicOfString (ArticleEngine.topicKeyStr t) = some t := by
  cases t <;> rfl

theorem parseArticleId_articleId (topic : ArticleEngine.TopicKey)
    (y1 y2 y3 y4 m1 m2 d1 d2 : Char)
    (h1 : y1.isDigit = true) (h2 : y2.isDigit = true) (h3 : y3.isDigit = true)
    (h4 : y4.isDigit = true) (h5 : m1.isDigit = true) (h6 : m2.isDigit = true)
    (h7 : d1.isDigit = true) (h8 : d2.isDigit = true) (index : Nat) :
    ArticleEngine.parseArticleId
      (ArticleEngine.articleId topic
        (String.mk [y1, y2, y3, y4, '-', m1, m2, '-', d1, d2]) index) =
      some (topic, String.mk [y1, y2, y3, y4, '-', m1, m2, '-', d1, d2], index) := by
  have n1 := isDigit_ne_dash y1 h1
  have n2 := isDigit_ne_dash y2 h2
  have n3 := isDigit_ne_dash y3 h3
  have n4 := isDigit_ne_dash y4 h4
  have n5 := isDigit_ne_dash m1 h5
  have n6 := isDigit_ne_dash m2 h6
  have n7 := isDigit_ne_dash d1 h7
  have n8 := isDigit_ne_dash d2 h8
  have hdash : ("-" : String).data = ['-'] := rfl
  have hdata : (ArticleEngine.articleId topic
      (String.mk [y1, y2, y3, y4, '-', m1, m2, '-', d1, d2]) index).data =
      (ArticleEngine.topicKeyStr topic).data ++ '-' ::
        ([y1, y2, y3, y4, m1, m2, d1, d2] ++ '-' :: decDigits index) := by
    simp [ArticleEngine.articleId, ArticleEngine.stripDashes, natToStr, String.data_append,
      hdash, List.filter, n1, n2, n3, n4, n5, n6, n7, n8]
  have hrev : (ArticleEngine.articleId topic
      (String.mk [y1, y2, y3, y4, '-', m1, m2, '-', d1, d2]) index).data.reverse =
      (decDigits index).reverse ++ '-' ::
        ([d2, d1, m2, m1, y4, y3, y2, y1] ++ '-' ::
          (ArticleEngine.topicKeyStr topic).data.reverse) := by
    rw [hdata]
    simp
  have htake : ((ArticleEngine.articleId topic
      (String.mk [y1, y2, y3, y4, '-', m1, m2, '-', d1, d2]) index).data.reverse).takeWhile
        Char.isDigit = (decDigits index).reverse := by
    rw [hrev]
    exact takeWhile_append_stop _ _ _ _
      (fun x hx => decDigits_all_digit index x (List.mem_reverse.mp hx)) (by decide)
  have hdrop : ((ArticleEngine.articleId topic
      (String.mk [y1, y2, y3, y4, '-', m1, m2, '-', d1, d2]) index).data.reverse).dropWhile
        Char.isDigit =
      '-' :: ([d2, d1, m2, m1, y4, y3, y2, y1] ++ '-' ::
        (ArticleEngine.topicKeyStr topic).data.reverse) := by
    rw [hrev]
    exact dropWhile_append_stop _ _ _ _
      (fun x hx => decDigits_all_digit index x (List.mem_reverse.mp hx)) (by decide)
  obtain ⟨c0, cs0, hcons⟩ : ∃ c0 cs0, (decDigits index).reverse = c0 :: cs0 := by
    rcases hd : (decDigits index).reverse with _ | ⟨a, l⟩
    · exact absurd (List.reverse_eq_nil_iff.mp hd) (decDigits_ne_nil index)
    · exact ⟨a, l, rfl⟩
  unfold ArticleEngine.parseArticleId
  dsimp only
  rw [htake, hdrop, hcons]
  have htake8 : (([d2, d1, m2, m1, y4, y3, y2, y1] ++ '-' ::
      (ArticleEngine.topicKeyStr topic).data.reverse).take 8) =
      [d2, d1, m2, m1, y4, y3, y2, y1] := rfl
  have hdrop8 : (([d2, d1, m2, m1, y4, y3, y2, y1] ++ '-' ::
      (ArticleEngine.topicKeyStr topic).data.reverse).drop 8) =
      '-' :: (ArticleEngine.topicKeyStr topic).data.reverse := rfl
  simp only [htake8, hdrop8]
  have hcond : (([d2, d1, m2, m1, y4, y3, y2, y1] : List Char).length = 8 &&
      ([d2, d1, m2, m1, y4, y3, y2, y1] : List Char).all Char.isDigit) = true := by
    simp [h1, h2, h3, h4, h5, h6, h7, h8]
  have hcond2 : (('-' : Char) = '-' &&
      !((ArticleEngine.topicKeyStr topic).data.reverse.isEmpty) &&
      (ArticleEngine.topicKeyStr topic).data.reverse.all ArticleEngine.isTopicChar) = true := by
    rw [topicChars_reverse_all, topicChars_reverse_not_empty]
    decide
  simp only [hcond, hcond2, if_true, reduceIte]
  rw [List.reverse_reverse, string_mk_data, topicOfString_key]
  have hbrev : ([d2, d1, m2, m1, y4, y3, y2, y1] : List Char).reverse =
      [y1, y2, y3, y4, m1, m2, d1, d2] := by simp
  rw [hbrev]
  have hidx : (c0 :: cs0).reverse = decDigits index := by
    rw [← hcons, List.reverse_reverse]
  rw [hidx, parseDec_decDigits]
  have hcondF : (decide True && !((ArticleEngine.topicKeyStr topic).data.reverse.isEmpty) &&
      (ArticleEngine.topicKeyStr topic).data.reverse.all ArticleEngine.isTopicChar) = true := by
    rw [topicChars_reverse_all, topicChars_reverse_not_empty]
    decide
  rw [hcondF]
  rfl

/-- C4: for every registered topic, every `YYYY-MM-DD` digit-shaped date
string and every non-negative index, `parseArticleId` applied to the id of
`generateArticleCore topic dateISO index` returns exactly
`(topic, dateISO, index)`. -/
theorem c4_article_id_roundtrip :
    ∀ (topic : ArticleEngine.TopicKey) (y1 y2 y3 y4 m1 m2 d1 d2 : Char),
      y1.isDigit = true → y2.isDigit = true → y3.isDigit = true → y4.isDigit = true →
      m1.isDigit = true → m2.isDigit = true → d1.isDigit = true → d2.isDigit = true →
      ∀ (index : Nat),
        ∃ a, ArticleEngine.generateArticleCore topic
            (String.mk [y1, y2, y3, y4, '-', m1, m2, '-', d1, d2]) index = some a ∧
          ArticleEngine.parseArticleId a.id =
            some (topic, String.mk [y1, y2, y3, y4, '-', m1, m2, '-', d1, d2], index) := by
  intro topic y1 y2 y3 y4 m1 m2 d1 d2 h1 h2 h3 h4 h5 h6 h7 h8 index
  obtain ⟨a, ha, hid, -, -⟩ := generateArticleCore_some topic
    (String.mk [y1, y2, y3, y4, '-', m1, m2, '-', d1, d2]) index
  refine ⟨a, ha, ?_⟩
  rw [hid]
  exact parseArticleId_articleId topic y1 y2 y3 y4 m1 m2 d1 d2 h1 h2 h3 h4 h5 h6 h7 h8 index

/-- Witness for C4 at topic `ethics`, date 2025-08-11, index 1. -/
theorem c4_article_id_roundtrip_witness :
    ∃ a, ArticleEngine.generateArticleCore ArticleEngine.TopicKey.ethics
        (String.mk ['2', '0', '2', '5', '-', '0', '8', '-', '1', '1']) 1 = some a ∧
      ArticleEngine.parseArticleId a.id =
        some (ArticleEngine.TopicKey.ethics,
          String.mk ['2', '0', '2', '5', '-', '0', '8', '-', '1', '1'], 1) :=
  c4_article_id_roundtrip ArticleEngine.TopicKey.ethics '2' '0' '2' '5' '0' '8' '1' '1'
    (by decide) (by decide) (by decide) (by decide) (by decide) (by decide) (by decide)
    (by decide) 1
